import Mathlib

/-!
# Verification of the news_buddy core (collectors, store, scheduler, summarizer)

A shallow embedding of the repository's Python core:

* `database.py` — the SQLite-backed article/summary store.  The store is
  modelled as an explicit record of row lists plus the next AUTOINCREMENT
  rowids.  SQLite stores timestamps as ISO-8601 TEXT and compares them as
  text; we keep the `DateTime` values in the rows and route every comparison
  through their ISO rendering (`isoData`), which is exactly the byte/codepoint
  order SQLite's BINARY collation uses on those strings.
* `collectors/{rss,anthropic,deepmind}.py` — each collector is a pure
  function of the parsed source document (a list of feed entries or anchor
  elements); the external libraries (`feedparser`'s RFC-2822 date parser,
  HTTP) appear as oracle parameters.
* `scheduler.py` — `fetch_all_sources` over the list of per-collector
  outcomes (`Except` models a raised/caught exception).
* `summarizer.py` — `generate_daily_summary` with the Gemini call modelled
  as an `Option String` oracle (`some` = returned text, `none` = raised).

All string manipulation is done on `List Char` (code points), matching
Python `str` semantics for the ASCII data involved; ASCII-only variants of
`lower`/`title`/`isalpha` mirror CPython's behaviour on the ASCII inputs
these code paths handle.
-/

namespace NewsBuddy

/-! ## Character-list string primitives -/

/-- Code-point lexicographic strict order on strings (Python `<` on `str`,
SQLite BINARY collation on UTF-8 TEXT). -/
def lexLt : List Char → List Char → Bool
  | _, [] => false
  | [], _ :: _ => true
  | a :: as, b :: bs => a.toNat < b.toNat || (decide (a = b) && lexLt as bs)

/-- Reflexive closure of `lexLt`. -/
def lexLe (a b : List Char) : Bool := lexLt a b || decide (a = b)

/-- Embedding of `needle.isPrefixOf hay`-based substring test: Python's `needle in hay`. -/
def containsSub (hay needle : List Char) : Bool :=
  needle.isPrefixOf hay ||
    match hay with
    | [] => false
    | _ :: t => containsSub t needle

/-- Python `str.split(sep)` for a single-character separator. -/
def splitOnChar (sep : Char) : List Char → List (List Char)
  | [] => [[]]
  | c :: cs =>
    if c = sep then [] :: splitOnChar sep cs
    else
      match splitOnChar sep cs with
      | [] => [[c]]
      | g :: gs => (c :: g) :: gs

/-- Python `str.rstrip("/")`: drop trailing `'/'` characters. -/
def rstripSlash (l : List Char) : List Char :=
  (l.reverse.dropWhile (fun c => c = '/')).reverse

/-- Python `str.strip()`: trim leading and trailing whitespace. -/
def trimWs (l : List Char) : List Char :=
  ((l.dropWhile Char.isWhitespace).reverse.dropWhile Char.isWhitespace).reverse

/-! ## DateTime

`datetime.datetime` restricted to second precision (the code never produces
sub-second fields that matter to any claim).  `isoformat` renders the
zero-padded ISO form that `database.py` stores, and all store-level
comparisons go through it. -/

structure DateTime where
  year : Nat
  month : Nat
  day : Nat
  hour : Nat := 0
  minute : Nat := 0
  second : Nat := 0
deriving DecidableEq, Repr

/-- One decimal digit as a character. -/
def digitChar (n : Nat) : Char :=
  match n with
  | 0 => '0' | 1 => '1' | 2 => '2' | 3 => '3' | 4 => '4'
  | 5 => '5' | 6 => '6' | 7 => '7' | 8 => '8' | _ => '9'

/-- Zero-padded two-digit rendering (`%02d`). -/
def pad2 (n : Nat) : List Char := [digitChar (n / 10 % 10), digitChar (n % 10)]

/-- Zero-padded four-digit rendering (`%04d`). -/
def pad4 (n : Nat) : List Char :=
  [digitChar (n / 1000 % 10), digitChar (n / 100 % 10),
   digitChar (n / 10 % 10), digitChar (n % 10)]

/-- Embedding of `datetime.isoformat()` as a character list: `YYYY-MM-DDTHH:MM:SS`. -/
def DateTime.isoData (d : DateTime) : List Char :=
  pad4 d.year ++ '-' :: pad2 d.month ++ '-' :: pad2 d.day ++
    'T' :: pad2 d.hour ++ ':' :: pad2 d.minute ++ ':' :: pad2 d.second

/-- Embedding of `datetime.strftime("%Y-%m-%d")`. -/
def DateTime.strftimeDate (d : DateTime) : String :=
  String.mk (pad4 d.year ++ '-' :: pad2 d.month ++ '-' :: pad2 d.day)

/-- Embedding of `datetime.strftime("%Y-%m-%d %H:%M")`. -/
def DateTime.strftimeMinute (d : DateTime) : String :=
  String.mk (pad4 d.year ++ '-' :: pad2 d.month ++ '-' :: pad2 d.day ++
    ' ' :: pad2 d.hour ++ ':' :: pad2 d.minute)

/-! ## Data model (`database.py`, `collectors/base.py`) -/

/-- Embedding of `collectors.base.CollectedArticle`. -/
structure CollectedArticle where
  title : String
  url : String
  source : String
  published_at : Option DateTime
  content_preview : Option String := none
deriving DecidableEq, Repr

/-- Embedding of `database.Article` (the dataclass handed to `save_article`). -/
structure Article where
  id : Option Nat
  title : String
  url : String
  source : String
  published_at : Option DateTime
  content_preview : Option String
  scraped_at : DateTime
deriving DecidableEq, Repr

/-- Embedding of `database.Summary`. -/
structure Summary where
  id : Option Nat
  date : String
  content : String
  created_at : DateTime
deriving DecidableEq, Repr

/-- A persisted row of the `articles` table (rowid always assigned). -/
structure ArticleRow where
  id : Nat
  title : String
  url : String
  source : String
  published_at : Option DateTime
  content_preview : Option String
  scraped_at : DateTime
deriving DecidableEq, Repr

/-- A persisted row of the `summaries` table. -/
structure SummaryRow where
  id : Nat
  date : String
  content : String
  created_at : DateTime
deriving DecidableEq, Repr

/-- The SQLite database state: the two row collections plus the next
AUTOINCREMENT rowid of each table (AUTOINCREMENT never reuses rowids). -/
structure DB where
  articles : List ArticleRow
  summaries : List SummaryRow
  next_article_id : Nat
  next_summary_id : Nat
deriving DecidableEq, Repr

/-- Embedding of `database.save_article`: `INSERT` into `articles`; a UNIQUE violation on
`url` raises `IntegrityError`, which the function catches and maps to
`None`.  Returns `cursor.lastrowid` on success. -/
def save_article (article : Article) (db : DB) : Option Nat × DB :=
  if db.articles.any (fun r => decide (r.url = article.url)) then
    (none, db)
  else
    (some db.next_article_id,
     { db with
        articles := db.articles ++
          [{ id := db.next_article_id, title := article.title,
             url := article.url, source := article.source,
             published_at := article.published_at,
             content_preview := article.content_preview,
             scraped_at := article.scraped_at }],
        next_article_id := db.next_article_id + 1 })

/-- Embedding of `database.save_summary`: `INSERT OR REPLACE INTO summaries` — SQLite
deletes every row that would violate the UNIQUE(date) constraint and then
inserts a fresh row with a new AUTOINCREMENT rowid; the function returns
`last_insert_rowid()`. -/
def save_summary (summary : Summary) (db : DB) : Nat × DB :=
  (db.next_summary_id,
   { db with
      summaries := db.summaries.filter (fun r => decide (r.date ≠ summary.date)) ++
        [{ id := db.next_summary_id, date := summary.date,
           content := summary.content, created_at := summary.created_at }],
      next_summary_id := db.next_summary_id + 1 })

/-! ## `database.get_articles` -/

/-- Strict order on the stored `published_at` TEXT values: SQLite NULL
compares below every TEXT value, so with `ORDER BY published_at DESC` the
NULL rows sort after all non-NULL rows. -/
def optIsoLt : Option (List Char) → Option (List Char) → Bool
  | none, none => false
  | none, some _ => true
  | some _, none => false
  | some x, some y => lexLt x y

/-- The sort key of a row: the stored `published_at` TEXT (or NULL) and
the stored `scraped_at` TEXT. -/
def keyOf (r : ArticleRow) : Option (List Char) × List Char :=
  (r.published_at.map DateTime.isoData, r.scraped_at.isoData)

/-- Ascending lexicographic comparison of two sort keys (NULL below any
TEXT, as SQLite compares). -/
def keyLe (p q : Option (List Char) × List Char) : Bool :=
  optIsoLt p.1 q.1 || (decide (p.1 = q.1) && lexLe p.2 q.2)

/-- Embedding of `ORDER BY published_at DESC, scraped_at DESC` as a "comes no later
than" relation on rows: `rowLe a b` holds when row `a` may appear at or
before row `b` in the query result, i.e. the key of `b` is at most the key
of `a`. -/
def rowLe (a b : ArticleRow) : Bool := keyLe (keyOf b) (keyOf a)

/-- Embedding of `Article.from_row` applied to a stored row (ISO round-trip is exact). -/
def rowToArticle (r : ArticleRow) : Article :=
  { id := some r.id, title := r.title, url := r.url, source := r.source,
    published_at := r.published_at, content_preview := r.content_preview,
    scraped_at := r.scraped_at }

/-- Embedding of `database.get_articles`: note the Python truthiness test `if source:` —
an empty-string `source` disables the filter exactly like `None`; a
supplied `since` datetime is always truthy.  The `WHERE` clause compares
the stored ISO TEXT, and `ORDER BY` is modelled as sorting by `rowLe`.
`limit` is a natural number (every caller passes 30, 50 or 100; SQLite's
negative-LIMIT-means-unbounded special case is outside the modelled
domain). -/
def get_articles (db : DB) (source : Option String := none)
    (since : Option DateTime := none) (limit : Nat := 100) : List Article :=
  let rows := db.articles
  let rows := match source with
    | some s => if s = "" then rows else rows.filter (fun (r : ArticleRow) => decide (r.source = s))
    | none => rows
  let rows := match since with
    | some t => rows.filter (fun (r : ArticleRow) => lexLe t.isoData r.scraped_at.isoData)
    | none => rows
  (((rows.insertionSort (fun a b => rowLe a b = true)).take limit).map rowToArticle)

/-! ## `collectors/rss.py` — OpenAICollector (feed strategy) -/

namespace OpenAICollector

/-- A `feedparser` entry: each field is `entry.get(...)`, absent keys give
the default. -/
structure FeedEntry where
  title : Option String := none
  link : Option String := none
  published : Option String := none
  description : Option String := none
deriving DecidableEq, Repr

/-- Embedding of `OpenAICollector._parse_date`: `if not date_str: return None`, then
`parsedate_to_datetime` (the stdlib RFC-2822 parser, modelled as the oracle
`rfc`, whose `none` outcome is the caught `ValueError`/`TypeError`). -/
def _parse_date (rfc : String → Option NewsBuddy.DateTime) :
    Option String → Option NewsBuddy.DateTime
  | none => none
  | some s => if s = "" then none else rfc s

/-- Python `entry.get("description", "")[:500] if entry.get("description")
else None`. -/
def previewOf (description : Option String) : Option String :=
  match description with
  | none => none
  | some d => if d = "" then none else some (String.mk (d.data.take 500))

/-- Embedding of `OpenAICollector.fetch_articles` over the parsed feed: one
`CollectedArticle` per entry, with no truncation of the entry list. -/
def fetch_articles (rfc : String → Option NewsBuddy.DateTime)
    (entries : List FeedEntry) : List NewsBuddy.CollectedArticle :=
  entries.map (fun e =>
    { title := e.title.getD "Untitled"
      url := e.link.getD ""
      source := "OpenAI"
      published_at := _parse_date rfc e.published
      content_preview := previewOf e.description })

end OpenAICollector

/-! ## `collectors/anthropic.py` — AnthropicCollector (path-filtered scrape)

The date machinery models `re.search` of
`(Jan|Feb|...|Dec)\s+\d{1,2},?\s+\d{4}` followed by
`datetime.strptime(m, "%b %d, %Y")` / `"%b %d %Y"` (CPython `_strptime`:
whitespace in the format matches `\s+`, `%d` is `3[01]|[12]\d|0[1-9]|[1-9]`,
`%Y` is exactly four digits, the whole string must be consumed, and
`datetime(...)` validates the day against the month and `year >= 1`). -/

namespace AnthropicCollector

/-- The twelve month abbreviations of the search pattern (exact case). -/
def monthAbbrevs : List String :=
  ["Jan", "Feb", "Mar", "Apr", "May", "Jun",
   "Jul", "Aug", "Sep", "Oct", "Nov", "Dec"]

/-- The 1-based month number of a (case-insensitively matched) abbreviation. -/
def monthNum (m : List Char) : Option Nat :=
  let lm := m.map Char.toLower
  match (monthAbbrevs.map (fun s => s.data.map Char.toLower)).indexOf? lm with
  | some i => some (i + 1)
  | none => none

/-- Gregorian leap year (as `datetime` uses). -/
def isLeap (y : Nat) : Bool := y % 4 = 0 && (y % 100 ≠ 0 || y % 400 = 0)

/-- Days in a month (as `datetime` validates). -/
def daysInMonth (y m : Nat) : Nat :=
  match m with
  | 1 => 31 | 2 => if isLeap y then 29 else 28 | 3 => 31 | 4 => 30
  | 5 => 31 | 6 => 30 | 7 => 31 | 8 => 31 | 9 => 30 | 10 => 31
  | 11 => 30 | _ => 31

/-- The tail of the search regex after the day digits: `,?\s+\d{4}`.
Returns the matched characters.  The optional comma is consumed greedily;
if the comma is present but not followed by whitespace no backtracking can
succeed (`\s+` can never match a comma). -/
def matchCommaWsYear (l : List Char) : Option (List Char) :=
  let step := fun (pre : List Char) (r : List Char) =>
    let ws := r.takeWhile Char.isWhitespace
    if ws = [] then none
    else
      let r2 := r.drop ws.length
      if r2.length ≥ 4 && (r2.take 4).all Char.isDigit then
        some (pre ++ ws ++ r2.take 4)
      else none
  match l with
  | ',' :: rest => step [','] rest
  | _ => step [] l

/-- Embedding of `\d{1,2}` with the regex's greedy backtracking: try two digits, then
one, each followed by `,?\s+\d{4}`. -/
def matchDayTail (l : List Char) : Option (List Char) :=
  let tryK := fun (k : Nat) =>
    if l.length ≥ k && (l.take k).all Char.isDigit then
      match matchCommaWsYear (l.drop k) with
      | some t => some (l.take k ++ t)
      | none => none
    else none
  match tryK 2 with
  | some m => some m
  | none => tryK 1

/-- Attempt the whole pattern at the current position, returning the
matched text (`match.group()`). -/
def matchAt (l : List Char) : Option (List Char) :=
  if l.length ≥ 3 && (monthAbbrevs.map String.data).contains (l.take 3) then
    let r1 := l.drop 3
    let ws := r1.takeWhile Char.isWhitespace
    if ws = [] then none
    else
      match matchDayTail (r1.drop ws.length) with
      | some t => some (l.take 3 ++ ws ++ t)
      | none => none
  else none

/-- Embedding of `re.search`: the leftmost position where the pattern matches. -/
def findDateMatch : List Char → Option (List Char)
  | [] => matchAt []
  | c :: cs =>
    match matchAt (c :: cs) with
    | some m => some m
    | none => findDateMatch cs

/-- First alternative of a priority list that the continuation accepts
(regex alternation with backtracking). -/
def firstSome {α β : Type} (alts : List α) (k : α → Option β) : Option β :=
  match alts with
  | [] => none
  | a :: rest =>
    match k a with
    | some b => some b
    | none => firstSome rest k

/-- The `%d` alternatives `3[01] | [12]\d | 0[1-9] | [1-9]` in CPython's
order, each returning the parsed day and the remaining input. -/
def dayAlts (l : List Char) : List (Nat × List Char) :=
  let a1 := match l with
    | '3' :: c :: r => if c = '0' || c = '1' then some (30 + (c.toNat - 48), r) else none
    | _ => none
  let a2 := match l with
    | c1 :: c2 :: r =>
      if (c1 = '1' || c1 = '2') && c2.isDigit then
        some ((c1.toNat - 48) * 10 + (c2.toNat - 48), r)
      else none
    | _ => none
  let a3 := match l with
    | '0' :: c :: r => if c.isDigit && c ≠ '0' then some (c.toNat - 48, r) else none
    | _ => none
  let a4 := match l with
    | c :: r => if c.isDigit && c ≠ '0' then some (c.toNat - 48, r) else none
    | _ => none
  [a1, a2, a3, a4].filterMap id

/-- Four digits to a number. -/
def year4 (a b c d : Char) : Nat :=
  (a.toNat - 48) * 1000 + (b.toNat - 48) * 100 + (c.toNat - 48) * 10 + (d.toNat - 48)

/-- Rest of the `strptime` format after `%d`: optionally a literal comma
(format `"%b %d, %Y"`), then `\s+`, then `%Y`, then end of input. -/
def contAfterDay (withComma : Bool) (l : List Char) : Option Nat :=
  let rest := fun (r : List Char) =>
    let ws := r.takeWhile Char.isWhitespace
    if ws = [] then none
    else
      match r.drop ws.length with
      | [a, b, c, d] =>
        if a.isDigit && b.isDigit && c.isDigit && d.isDigit then
          some (year4 a b c d)
        else none
      | _ => none
  if withComma then
    match l with
    | ',' :: r => rest r
    | _ => none
  else rest l

/-- Embedding of `datetime.strptime(text, "%b %d, %Y")` (`withComma = true`) or
`"%b %d %Y"` (`withComma = false`); `none` is the caught `ValueError`. -/
def strptime_b_d_Y (withComma : Bool) (l : List Char) : Option NewsBuddy.DateTime :=
  match l with
  | c1 :: c2 :: c3 :: r1 =>
    match monthNum [c1, c2, c3] with
    | none => none
    | some mo =>
      let ws := r1.takeWhile Char.isWhitespace
      if ws = [] then none
      else
        match firstSome (dayAlts (r1.drop ws.length))
          (fun dr => (contAfterDay withComma dr.2).map (fun y => (dr.1, y))) with
        | none => none
        | some (d, y) =>
          if 1 ≤ y && d ≤ daysInMonth y mo then
            some { year := y, month := mo, day := d }
          else none
  | _ => none

/-- Embedding of `AnthropicCollector._extract_date_from_context`: `none` input models a
link node without a parent; otherwise the parent's stripped text is
searched and the first match is parsed with the two formats in order. -/
def _extract_date_from_context (parentText : Option String) : Option NewsBuddy.DateTime :=
  match parentText with
  | none => none
  | some t =>
    match findDateMatch t.data with
    | none => none
    | some m =>
      match strptime_b_d_Y true m with
      | some d => some d
      | none => strptime_b_d_Y false m

/-- An anchor element of the Anthropic news page as the collector sees it:
its `href`, its stripped text, and its parent's stripped text (when the
node has a parent). -/
structure AnAnchor where
  href : String
  text : String
  parentText : Option String := none
deriving DecidableEq, Repr

/-- Loop body of `AnthropicCollector.fetch_articles` accumulating the
`articles` list (the CSS selector `a[href^='/news/']` keeps anchors whose
href starts with `/news/`). -/
def collectLoop : List AnAnchor → List NewsBuddy.CollectedArticle →
    List NewsBuddy.CollectedArticle
  | [], acc => acc
  | a :: rest, acc =>
    if !("/news/".data.isPrefixOf a.href.data) then collectLoop rest acc
    else if a.href = "/news" || a.href = "/news/" then collectLoop rest acc
    else
      let url := "https://www.anthropic.com" ++ a.href
      if a.text = "" || a.text.length < 5 then collectLoop rest acc
      else
        let published_at := _extract_date_from_context a.parentText
        if acc.any (fun x => decide (x.url = url)) then collectLoop rest acc
        else
          collectLoop rest (acc ++
            [{ title := a.text, url := url, source := "Anthropic",
               published_at := published_at, content_preview := none }])

/-- Embedding of `AnthropicCollector.fetch_articles` over the page's `/news/` anchors:
`return articles[:20]`. -/
def fetch_articles (anchors : List AnAnchor) : List NewsBuddy.CollectedArticle :=
  (collectLoop anchors []).take 20

end AnthropicCollector

/-! ## `collectors/deepmind.py` — DeepMindCollector (multi-strategy scrape) -/

namespace DeepMindCollector

/-- An anchor of the DeepMind blog page: `href`, the `aria-label`
attribute (`attributes.get("aria-label", "")`), the text of the first
`h1`–`h4` inside the anchor (when present), and the anchor's stripped
text. -/
structure DMAnchor where
  href : String
  ariaLabel : String := ""
  heading : Option String := none
  text : String := ""
deriving DecidableEq, Repr

/-- The `invalid` list of `_is_valid_title`. -/
def invalidPhrases : List (List Char) :=
  ["learn more", "read more", "keyboard_arrow_right", "see more", "view all"].map
    String.data

/-- Embedding of `DeepMindCollector._is_valid_title`: non-empty, at least five
characters, and not (case-insensitively, stripped) one of the
navigation-boilerplate phrases. -/
def _is_valid_title (text : String) : Bool :=
  if text = "" || text.length < 5 then false
  else !(invalidPhrases.contains (NewsBuddy.trimWs (text.data.map Char.toLower)))

/-- Python `str.title()` on ASCII text: uppercase every letter that does
not follow a letter, lowercase the rest (`prev` records whether the
previous character was a letter). -/
def titleAux (prev : Bool) : List Char → List Char
  | [] => []
  | c :: cs =>
    (if c.isAlpha then (if prev then c.toLower else c.toUpper) else c) ::
      titleAux c.isAlpha cs

/-- Embedding of `re.sub(r'^(blog-|post-|article-)', '', path)`: strip one known
leading marker (the `^` anchor allows at most one substitution). -/
def dropKnownPre (l : List Char) : List Char :=
  if "blog-".data.isPrefixOf l then l.drop 5
  else if "post-".data.isPrefixOf l then l.drop 5
  else if "article-".data.isPrefixOf l then l.drop 8
  else l

/-- Embedding of `url.rstrip("/").split("/")[-1]` followed by the marker strip: the
slug `_title_from_url` works on. -/
def strippedSlug (url : String) : List Char :=
  dropKnownPre ((NewsBuddy.splitOnChar '/' (NewsBuddy.rstripSlash url.data)).getLastD [])

/-- Embedding of `DeepMindCollector._title_from_url`: take the final path segment,
strip a known marker, replace `-`/`_` by spaces (single-character
`str.replace` is a character map) and title-case the result. -/
def _title_from_url (url : String) : String :=
  String.mk (titleAux false
    ((strippedSlug url).map (fun c => if c = '-' || c = '_' then ' ' else c)))

/-- Embedding of `re.sub(r'keyboard_arrow_right\s*', '', text, flags=re.IGNORECASE)`:
remove every occurrence of the icon name plus any following whitespace.
The fuel argument (the input length) makes the scan structural; each step
consumes at least one character. -/
def stripIconAux (fuel : Nat) (l : List Char) : List Char :=
  match fuel, l with
  | _, [] => []
  | 0, l => l
  | Nat.succ f, c :: cs =>
    let needle := "keyboard_arrow_right".data
    if needle.isPrefixOf ((c :: cs).map Char.toLower) then
      stripIconAux f (((c :: cs).drop needle.length).dropWhile Char.isWhitespace)
    else c :: stripIconAux f cs

/-- The icon-artifact removal at the input's own length as fuel. -/
def stripIcon (l : List Char) : List Char := stripIconAux l.length l

/-- Embedding of `re.sub(r'\s*Phrase\s*$', '', text, flags=re.IGNORECASE)`: if the text
ends with the phrase (case-insensitively, ignoring surrounding
whitespace), remove the phrase and both whitespace runs; otherwise leave
the text unchanged. -/
def stripTrailingCI (phrase : List Char) (l : List Char) : List Char :=
  let r := l.reverse.dropWhile Char.isWhitespace
  if (phrase.reverse.map Char.toLower).isPrefixOf (r.map Char.toLower) then
    ((r.drop phrase.length).dropWhile Char.isWhitespace).reverse
  else l

/-- The strategy-3 cleanup of the anchor text: icon removal, trailing
"Learn more", trailing "Read more", then `strip()`. -/
def cleanLinkText (text : String) : String :=
  String.mk (NewsBuddy.trimWs
    (stripTrailingCI "Read more".data
      (stripTrailingCI "Learn more".data (stripIcon text.data))))

/-- Embedding of `DeepMindCollector._extract_title`: the ordered cascade —
aria-label, first heading, cleaned link text, URL slug. -/
def _extract_title (a : DMAnchor) (url : String) : String :=
  if a.ariaLabel ≠ "" && _is_valid_title a.ariaLabel then a.ariaLabel
  else
    match a.heading with
    | some h =>
      if _is_valid_title h then h
      else
        let lt := cleanLinkText a.text
        if _is_valid_title lt then lt else _title_from_url url
    | none =>
      let lt := cleanLinkText a.text
      if _is_valid_title lt then lt else _title_from_url url

/-- Embedding of `url.split("?")[0]`: the prefix before the first `'?'`. -/
def stripQuery (url : String) : String :=
  String.mk (url.data.takeWhile (fun c => c ≠ '?'))

/-- Loop body of `DeepMindCollector.fetch_articles` carrying the
`seen_urls` set (modelled as a list). -/
def collectLoop : List DMAnchor → List String → List NewsBuddy.CollectedArticle
  | [], _ => []
  | a :: rest, seen =>
    let href := a.href
    let is_deepmind_blog :=
      NewsBuddy.containsSub href.data "/blog/".data &&
        NewsBuddy.containsSub href.data "deepmind.google".data
    let is_google_blog := NewsBuddy.containsSub href.data "blog.google".data
    if !(is_deepmind_blog || is_google_blog) then collectLoop rest seen
    else if String.mk (NewsBuddy.rstripSlash href.data) =
        "https://deepmind.google/discover/blog" then collectLoop rest seen
    else if String.mk (NewsBuddy.rstripSlash href.data) = "/discover/blog" then
      collectLoop rest seen
    else
      let url := if "/".data.isPrefixOf href.data then
          "https://deepmind.google" ++ href else href
      let base_url := stripQuery url
      if seen.any (fun s => decide (s = base_url)) then collectLoop rest seen
      else
        let title := _extract_title a base_url
        if title = "" || title.length < 5 then collectLoop rest (base_url :: seen)
        else
          { title := title, url := base_url, source := "DeepMind",
            published_at := none, content_preview := none } ::
            collectLoop rest (base_url :: seen)

/-- Embedding of `DeepMindCollector.fetch_articles` over the page's anchors:
`return articles[:20]`. -/
def fetch_articles (anchors : List DMAnchor) : List NewsBuddy.CollectedArticle :=
  (collectLoop anchors []).take 20

end DeepMindCollector

/-! ## `summarizer.py` -/

/-- Embedding of `config.summary_lookback_hours` (config.py). -/
def summary_lookback_hours : Nat := 24

/-- The `by_source` dict of `_fallback_summary`: Python dicts preserve
first-insertion order of keys, `setdefault(...).append` keeps each group's
articles in arrival order. -/
def groupBySource (articles : List Article) : List (String × List Article) :=
  articles.foldl (fun acc a => addToGroup acc a) []
where
  addToGroup : List (String × List Article) → Article → List (String × List Article)
  | [], a => [(a.source, [a])]
  | (k, v) :: rest, a =>
    if k = a.source then (k, v ++ [a]) :: rest
    else (k, v) :: addToGroup rest a

/-- Embedding of `sorted(by_source.items())`: sort the groups by source name (keys are
distinct, so the tuple comparison never reaches the second component). -/
def sortedGroups (articles : List Article) : List (String × List Article) :=
  (groupBySource articles).insertionSort (fun g h => lexLe g.1.data h.1.data = true)

/-- The `lines` list built by `_fallback_summary` (`now` is the
`datetime.now()` of the footer). -/
def fallbackLines (articles : List Article) (now : DateTime) : List String :=
  ["# Daily AI News Digest\n"] ++
    (sortedGroups articles).flatMap (fun g =>
      ("\n## " ++ g.1 ++ "\n") ::
        (g.2.take 5).map (fun a => "- [" ++ a.title ++ "](" ++ a.url ++ ")")) ++
    ["\n\n*Generated on " ++ now.strftimeMinute ++ "*"]

/-- Embedding of `summarizer._fallback_summary`: `"\n".join(lines)`. -/
def _fallback_summary (articles : List Article) (now : DateTime) : String :=
  String.intercalate "\n" (fallbackLines articles now)

/-- Embedding of `summarizer._generate_summary_with_gemini`: without an API key the
fallback digest is returned; otherwise the Gemini call is the oracle —
`some text` is `response.text`, `none` the caught exception, which also
falls back. -/
def _generate_summary_with_gemini (apiKey : String) (gemini : Option String)
    (now : DateTime) (articles : List Article) : String :=
  if apiKey = "" then _fallback_summary articles now
  else
    match gemini with
    | some text => text
    | none => _fallback_summary articles now

/-- Embedding of `summarizer.generate_daily_summary`.  `now` is `datetime.now()` and
`since` the computed window start `now - timedelta(hours=24)` (calendar
arithmetic happens in the external `datetime` library, so the pair is
passed in). -/
def generate_daily_summary (apiKey : String) (gemini : Option String)
    (now since : DateTime) (db : DB) : Summary × DB :=
  let articles := get_articles db none (some since) 50
  let content :=
    if articles = [] then "No new articles were published in the last 24 hours."
    else _generate_summary_with_gemini apiKey gemini now articles
  let summary : Summary :=
    { id := none, date := now.strftimeDate, content := content, created_at := now }
  let res := save_summary summary db
  (summary, res.2)

/-! ## `scheduler.py` — `fetch_all_sources`

Each collector's `fetch_articles()` outcome is an input: `Except.error`
models a raised exception (network or parse failure), caught by the
per-collector `try/except`.  `now` models `datetime.now()` for
`scraped_at`. -/

/-- The inner persistence loop: `if save_article(article): new_count += 1`
(Python truthiness: a returned rowid counts when it is not `None` and not
`0`; SQLite rowids start at 1). -/
def saveLoop (items : List CollectedArticle) (now : DateTime) (db : DB) : Nat × DB :=
  match items with
  | [] => (0, db)
  | c :: rest =>
    let a : Article :=
      { id := none, title := c.title, url := c.url, source := c.source,
        published_at := c.published_at, content_preview := c.content_preview,
        scraped_at := now }
    let r := save_article a db
    let rec2 := saveLoop rest now r.2
    ((match r.1 with | some i => if i ≠ 0 then 1 else 0 | none => 0) + rec2.1,
     rec2.2)

/-- Embedding of `scheduler.fetch_all_sources` over the configuration-ordered collector
outcomes: an erroring collector is caught and logged, the rest continue;
the per-collector new counts accumulate into the returned total. -/
def fetch_all_sources (results : List (Except Unit (List CollectedArticle)))
    (now : DateTime) (db : DB) : Nat × DB :=
  match results with
  | [] => (0, db)
  | Except.error _ :: rest => fetch_all_sources rest now db
  | Except.ok items :: rest =>
    let r := saveLoop items now db
    let r2 := fetch_all_sources rest now r.2
    (r.1 + r2.1, r2.2)

/-! ## Concrete fixtures used by the witnesses and counterexamples -/

/-- Fixture for the C1 witness. -/
def w1Article : Article :=
  { id := none, title := "Hello world", url := "https://openai.com/blog/a",
    source := "OpenAI", published_at := none, content_preview := none,
    scraped_at := { year := 2025, month := 1, day := 1 } }

/-- Empty store (fresh schema) for the C1 witness. -/
def w1DB : DB := { articles := [], summaries := [], next_article_id := 1, next_summary_id := 1 }

/-- The store after the first insert of the C1 witness. -/
def w1DB2 : DB := (save_article w1Article w1DB).2

/-- Store with one summary row (rowid 1) for 2025-01-01. -/
def c2DB : DB :=
  { articles := [], next_article_id := 1, next_summary_id := 2,
    summaries := [{ id := 1, date := "2025-01-01", content := "old",
                    created_at := { year := 2025, month := 1, day := 1, hour := 6 } }] }

/-- The regenerated summary for the same date. -/
def c2Summary : Summary :=
  { id := none, date := "2025-01-01", content := "new",
    created_at := { year := 2025, month := 1, day := 1, hour := 7 } }

/-- The sort key of a returned `Article` (same TEXT key as `keyOf`). -/
def artKey (a : Article) : Option (List Char) × List Char :=
  (a.published_at.map DateTime.isoData, a.scraped_at.isoData)

/-- Store with one article of source `"OpenAI"` (for the C3 counterexample). -/
def c3DB : DB :=
  { articles := [{ id := 1, title := "t", url := "u", source := "OpenAI",
                   published_at := none, content_preview := none,
                   scraped_at := { year := 2025, month := 1, day := 1 } }],
    summaries := [], next_article_id := 2, next_summary_id := 1 }

/-- Store with one `"OpenAI"` article scraped on 2025-01-02 (C3 witness). -/
def w3Row : ArticleRow :=
  { id := 1, title := "t", url := "u", source := "OpenAI",
    published_at := none, content_preview := none,
    scraped_at := { year := 2025, month := 1, day := 2 } }

/-- One-row store for the C3 witness. -/
def w3DB : DB :=
  { articles := [w3Row], summaries := [], next_article_id := 2, next_summary_id := 1 }

/-- A syndication feed with 21 entries. -/
def c4Feed : List OpenAICollector.FeedEntry :=
  List.replicate 21 { title := some "Some title", link := some "u" }

/-- An article of the C6 fixture. -/
def c6Art (t u s : String) : Article :=
  { id := some 1, title := t, url := u, source := s, published_at := none,
    content_preview := none, scraped_at := { year := 2025, month := 1, day := 1 } }

/-- The C6 fixture: three `"OpenAI"` articles followed by seven
`"DeepMind"` articles in the window. -/
def c6Arts : List Article :=
  [c6Art "O1" "o1" "OpenAI", c6Art "O2" "o2" "OpenAI", c6Art "O3" "o3" "OpenAI",
   c6Art "D1" "d1" "DeepMind", c6Art "D2" "d2" "DeepMind", c6Art "D3" "d3" "DeepMind",
   c6Art "D4" "d4" "DeepMind", c6Art "D5" "d5" "DeepMind", c6Art "D6" "d6" "DeepMind",
   c6Art "D7" "d7" "DeepMind"]

/-- The footer timestamp of the C6 fixture. -/
def c6Now : DateTime := { year := 2025, month := 1, day := 2, hour := 6 }

/-- Collector outcomes for the C8 witness: one success, one raised
exception, one success with a duplicate item. -/
def w8Results : List (Except Unit (List CollectedArticle)) :=
  [Except.ok [{ title := "Title one", url := "https://a/1", source := "OpenAI",
                published_at := none, content_preview := none }],
   Except.error (),
   Except.ok [{ title := "Title two", url := "https://a/2", source := "Anthropic",
                published_at := none, content_preview := none },
              { title := "Title one", url := "https://a/1", source := "OpenAI",
                published_at := none, content_preview := none }]]

/-- Fresh store for the C8 witness. -/
def w8DB : DB :=
  { articles := [], summaries := [], next_article_id := 1, next_summary_id := 1 }

/-- Anchors for the C10 witness: one tracked URL, one relative URL, one
duplicate after query stripping. -/
def w10Anchors : List DeepMindCollector.DMAnchor :=
  [{ href := "https://deepmind.google/discover/blog/gemini-update?utm_source=x",
     ariaLabel := "Gemini update article" },
   { href := "/discover/blog/gemini-update?utm_source=y",
     ariaLabel := "Gemini update article" },
   { href := "https://blog.google/technology/new-model-release",
     ariaLabel := "New model release" }]

/-- The first collected item of the C10 witness run. -/
def w10Item : CollectedArticle :=
  { title := "Gemini update article",
    url := "https://deepmind.google/discover/blog/gemini-update",
    source := "DeepMind", published_at := none, content_preview := none }

/-! ## Order lemmas for the lexicographic TEXT comparison -/

theorem char_toNat_inj {a b : Char} (h : a.toNat = b.toNat) : a = b := by
  apply Char.ext
  have hv : a.val.toNat = b.val.toNat := h
  exact UInt32.toNat.inj hv

theorem lexLt_irrefl : ∀ l : List Char, lexLt l l = false := by
  intro l
  induction l with
  | nil => rfl
  | cons c cs ih => simp [lexLt, ih]

theorem lexLt_trans : ∀ a b c : List Char,
    lexLt a b = true → lexLt b c = true → lexLt a c = true := by
  intro a
  induction a with
  | nil =>
    intro b c hab hbc
    cases b with
    | nil => simp [lexLt] at hab
    | cons y ys =>
      cases c with
      | nil => simp [lexLt] at hbc
      | cons z zs => simp [lexLt]
  | cons x xs ih =>
    intro b c hab hbc
    cases b with
    | nil => simp [lexLt] at hab
    | cons y ys =>
      cases c with
      | nil => simp [lexLt] at hbc
      | cons z zs =>
        simp only [lexLt, Bool.or_eq_true, Bool.and_eq_true, decide_eq_true_eq] at hab hbc ⊢
        rcases hab with h1 | ⟨he, h2⟩
        · rcases hbc with g1 | ⟨ge, g2⟩
          · exact Or.inl (Nat.lt_trans h1 g1)
          · exact Or.inl (ge ▸ h1)
        · rcases hbc with g1 | ⟨ge, g2⟩
          · exact Or.inl (he ▸ g1)
          · exact Or.inr ⟨he.trans ge, ih ys zs h2 g2⟩

theorem lexLt_tricho : ∀ a b : List Char,
    lexLt a b = true ∨ a = b ∨ lexLt b a = true := by
  intro a
  induction a with
  | nil =>
    intro b
    cases b with
    | nil => exact Or.inr (Or.inl rfl)
    | cons y ys => exact Or.inl (by simp [lexLt])
  | cons x xs ih =>
    intro b
    cases b with
    | nil => exact Or.inr (Or.inr (by simp [lexLt]))
    | cons y ys =>
      rcases Nat.lt_trichotomy x.toNat y.toNat with hlt | heq | hgt
      · exact Or.inl (by simp [lexLt, hlt])
      · have hxy : x = y := char_toNat_inj heq
        subst hxy
        rcases ih ys with h1 | h2 | h3
        · exact Or.inl (by simp [lexLt, h1])
        · exact Or.inr (Or.inl (by rw [h2]))
        · exact Or.inr (Or.inr (by simp [lexLt, h3]))
      · exact Or.inr (Or.inr (by simp [lexLt, hgt]))

theorem lexLe_trans {a b c : List Char}
    (hab : lexLe a b = true) (hbc : lexLe b c = true) : lexLe a c = true := by
  simp only [lexLe, Bool.or_eq_true, decide_eq_true_eq] at hab hbc ⊢
  rcases hab with h1 | rfl
  · rcases hbc with g1 | rfl
    · exact Or.inl (lexLt_trans _ _ _ h1 g1)
    · exact Or.inl h1
  · exact hbc

theorem lexLe_total (a b : List Char) : (lexLe a b || lexLe b a) = true := by
  simp only [lexLe, Bool.or_eq_true, decide_eq_true_eq]
  rcases lexLt_tricho a b with h | h | h
  · exact Or.inl (Or.inl h)
  · exact Or.inl (Or.inr h)
  · exact Or.inr (Or.inl h)

theorem optIsoLt_trans : ∀ a b c : Option (List Char),
    optIsoLt a b = true → optIsoLt b c = true → optIsoLt a c = true := by
  intro a b c hab hbc
  cases a <;> cases b <;> cases c <;> simp_all [optIsoLt]
  exact lexLt_trans _ _ _ hab hbc

theorem optIsoLt_tricho : ∀ a b : Option (List Char),
    optIsoLt a b = true ∨ a = b ∨ optIsoLt b a = true := by
  intro a b
  cases a with
  | none =>
    cases b with
    | none => exact Or.inr (Or.inl rfl)
    | some y => exact Or.inl rfl
  | some x =>
    cases b with
    | none => exact Or.inr (Or.inr rfl)
    | some y =>
      rcases lexLt_tricho x y with h | h | h
      · exact Or.inl (by simpa [optIsoLt] using h)
      · exact Or.inr (Or.inl (by rw [h]))
      · exact Or.inr (Or.inr (by simpa [optIsoLt] using h))

theorem optIsoLt_irrefl (a : Option (List Char)) : optIsoLt a a = false := by
  cases a with
  | none => rfl
  | some x => simpa [optIsoLt] using lexLt_irrefl x

theorem keyLe_trans {p q r : Option (List Char) × List Char}
    (hpq : keyLe p q = true) (hqr : keyLe q r = true) : keyLe p r = true := by
  simp only [keyLe, Bool.or_eq_true, Bool.and_eq_true, decide_eq_true_eq] at hpq hqr ⊢
  rcases hpq with h1 | ⟨he, h2⟩
  · rcases hqr with g1 | ⟨ge, g2⟩
    · exact Or.inl (optIsoLt_trans _ _ _ h1 g1)
    · exact Or.inl (ge ▸ h1)
  · rcases hqr with g1 | ⟨ge, g2⟩
    · exact Or.inl (he ▸ g1)
    · exact Or.inr ⟨he.trans ge, lexLe_trans h2 g2⟩

theorem keyLe_total (p q : Option (List Char) × List Char) :
    (keyLe p q || keyLe q p) = true := by
  simp only [keyLe, Bool.or_eq_true, Bool.and_eq_true, decide_eq_true_eq]
  rcases optIsoLt_tricho p.1 q.1 with h | h | h
  · exact Or.inl (Or.inl h)
  · rcases Bool.or_eq_true _ _ |>.mp (lexLe_total p.2 q.2) with g | g
    · exact Or.inl (Or.inr ⟨h, g⟩)
    · exact Or.inr (Or.inr ⟨h.symm, g⟩)
  · exact Or.inr (Or.inl h)

theorem rowLe_trans (a b c : ArticleRow)
    (hab : rowLe a b = true) (hbc : rowLe b c = true) : rowLe a c = true :=
  keyLe_trans hbc hab

theorem rowLe_total (a b : ArticleRow) : (rowLe a b || rowLe b a) = true := by
  simpa [rowLe, Bool.or_comm] using keyLe_total (keyOf a) (keyOf b)

/-! ## C1 — `save_article` deduplication -/

/-- C1: for every store state whose `articles` table satisfies the UNIQUE
constraint on `url` and every article `a`: if no row with `a.url` exists,
`save_article` appends exactly one new row and returns its rowid; if such a
row exists, it returns `none`, leaves the store (and in particular the
existing row) unchanged, the store still holds exactly one row for that
url, and no error escapes (the embedding is total). -/
theorem save_article_dedup (a : Article) (db : DB)
    (hinv : (db.articles.filter (fun r => decide (r.url = a.url))).length ≤ 1) :
    ((∀ r ∈ db.articles, r.url ≠ a.url) →
        (save_article a db).1 = some db.next_article_id ∧
        (save_article a db).2.articles = db.articles ++
          [{ id := db.next_article_id, title := a.title, url := a.url,
             source := a.source, published_at := a.published_at,
             content_preview := a.content_preview, scraped_at := a.scraped_at }] ∧
        ((save_article a db).2.articles.filter
            (fun r => decide (r.url = a.url))).length = 1) ∧
    ((∃ r ∈ db.articles, r.url = a.url) →
        (save_article a db).1 = none ∧
        (save_article a db).2 = db ∧
        ((save_article a db).2.articles.filter
            (fun r => decide (r.url = a.url))).length = 1) := by
  constructor
  · intro hno
    have hany : db.articles.any (fun r => decide (r.url = a.url)) = false := by
      simp only [List.any_eq_false, decide_eq_true_eq]
      exact hno
    have hfilter : db.articles.filter (fun r => decide (r.url = a.url)) = [] := by
      rw [List.filter_eq_nil_iff]
      intro r hr
      simpa using hno r hr
    refine ⟨?_, ?_, ?_⟩
    · simp [save_article, hany]
    · simp [save_article, hany]
    · simp [save_article, hany, List.filter_append, hfilter]
  · intro hex
    have hany : db.articles.any (fun r => decide (r.url = a.url)) = true := by
      rw [List.any_eq_true]
      obtain ⟨r, hr, hu⟩ := hex
      exact ⟨r, hr, by simpa using hu⟩
    have hres : save_article a db = (none, db) := by
      simp [save_article, hany]
    obtain ⟨r, hr, hu⟩ := hex
    have hmem : r ∈ db.articles.filter (fun r => decide (r.url = a.url)) := by
      rw [List.mem_filter]
      exact ⟨hr, by simpa using hu⟩
    have hpos : 0 < (db.articles.filter (fun r => decide (r.url = a.url))).length :=
      List.length_pos.mpr (List.ne_nil_of_mem hmem)
    exact ⟨by rw [hres], by rw [hres],
      by rw [hres]; exact Nat.le_antisymm hinv hpos⟩

/-- C1 witness: `save_article_dedup` applied to a concrete first insert and
a concrete duplicate insert. -/
theorem save_article_dedup_witness :
    (save_article w1Article w1DB).1 = some 1 ∧
    (save_article w1Article w1DB2).1 = none ∧
    (save_article w1Article w1DB2).2 = w1DB2 := by
  refine ⟨?_, ?_, ?_⟩
  · exact ((save_article_dedup w1Article w1DB (by decide)).1 (by decide)).1
  · exact ((save_article_dedup w1Article w1DB2 (by decide)).2 (by decide)).1
  · exact ((save_article_dedup w1Article w1DB2 (by decide)).2 (by decide)).2.1

/-! ## C2 — `save_summary` upsert-by-date -/

/-- C2 counterexample: re-saving a summary for an existing date does NOT
update the row in place — `INSERT OR REPLACE` deletes rowid 1 and inserts a
fresh row with the new rowid 2, so the claim's "the row, including its
identifier, is updated rather than deleted and re-created" is false. -/
theorem save_summary_in_place_counterexample :
    (save_summary c2Summary c2DB).1 = 2 ∧
    (save_summary c2Summary c2DB).2.summaries =
      [{ id := 2, date := "2025-01-01", content := "new",
         created_at := { year := 2025, month := 1, day := 1, hour := 7 } }] := by
  decide

/-- C2 (amended): `save_summary` upserts by date — any existing row for
`s.date` is deleted and one fresh row (with a new, never-used rowid) holding
the new content and created_at is inserted; rows of other dates are
untouched; the new rowid is returned; afterwards exactly one row exists for
that date.  (The freshness hypothesis is the AUTOINCREMENT invariant: every
stored rowid is below the table's next rowid.) -/
theorem save_summary_upsert (s : Summary) (db : DB)
    (hfresh : ∀ r ∈ db.summaries, r.id < db.next_summary_id) :
    (save_summary s db).1 = db.next_summary_id ∧
    (save_summary s db).2.summaries.filter (fun r => decide (r.date = s.date)) =
      [{ id := db.next_summary_id, date := s.date, content := s.content,
         created_at := s.created_at }] ∧
    (save_summary s db).2.summaries.filter (fun r => decide (r.date ≠ s.date)) =
      db.summaries.filter (fun r => decide (r.date ≠ s.date)) ∧
    (∀ r ∈ db.summaries, r.id ≠ (save_summary s db).1) := by
  refine ⟨rfl, ?_, ?_, ?_⟩
  · simp [save_summary, List.filter_append, List.filter_filter]
  · simp [save_summary, List.filter_append, List.filter_filter]
  · intro r hr
    exact Nat.ne_of_lt (hfresh r hr)

/-- C2 witness: `save_summary_upsert` applied to the concrete store of the
counterexample. -/
theorem save_summary_upsert_witness :
    (save_summary c2Summary c2DB).1 = 2 ∧
    (save_summary c2Summary c2DB).2.summaries.filter
      (fun r => decide (r.date = "2025-01-01")) =
      [{ id := 2, date := "2025-01-01", content := "new",
         created_at := { year := 2025, month := 1, day := 1, hour := 7 } }] := by
  have h := save_summary_upsert c2Summary c2DB (by decide)
  exact ⟨h.1, h.2.1⟩

/-! ## C3 — `get_articles` filtering, ordering, truncation -/

theorem sortTake_spec (rows : List ArticleRow) (limit : Nat) :
    (∀ a ∈ ((rows.insertionSort (fun a b => rowLe a b = true)).take limit).map rowToArticle,
        ∃ r ∈ rows, rowToArticle r = a) ∧
    List.Pairwise (fun x y => keyLe (artKey y) (artKey x) = true)
      (((rows.insertionSort (fun a b => rowLe a b = true)).take limit).map rowToArticle) ∧
    (((rows.insertionSort (fun a b => rowLe a b = true)).take limit).map rowToArticle).length
      ≤ limit := by
  haveI htot : IsTotal ArticleRow (fun a b => rowLe a b = true) :=
    ⟨fun a b => by simpa [Bool.or_eq_true] using rowLe_total a b⟩
  haveI htr : IsTrans ArticleRow (fun a b => rowLe a b = true) :=
    ⟨fun a b c => rowLe_trans a b c⟩
  refine ⟨?_, ?_, ?_⟩
  · intro a ha
    obtain ⟨r, hr, rfl⟩ := List.mem_map.mp ha
    exact ⟨r, (List.perm_insertionSort _ rows).mem_iff.mp
      ((List.take_sublist _ _).subset hr), rfl⟩
  · have hs : List.Pairwise (fun a b => rowLe a b = true)
        (rows.insertionSort (fun a b => rowLe a b = true)) :=
      List.sorted_insertionSort _ rows
    have ht : List.Pairwise (fun a b => rowLe a b = true)
        ((rows.insertionSort (fun a b => rowLe a b = true)).take limit) :=
      List.Pairwise.sublist (List.take_sublist _ _) hs
    exact List.Pairwise.map rowToArticle (fun a b h => h) ht
  · calc (((rows.insertionSort (fun a b => rowLe a b = true)).take limit).map
        rowToArticle).length
        = ((rows.insertionSort (fun a b => rowLe a b = true)).take limit).length :=
          List.length_map _ _
      _ ≤ limit := by rw [List.length_take]; exact Nat.min_le_left _ _

/-- C3 counterexample: with the source filter given as the empty string,
Python's `if source:` truthiness test disables the filter, so an article
whose source is `"OpenAI"` (≠ `""`) is returned — the claim's "returns only
articles passing the exact source match when those filters are given" fails
for the given filter `""`. -/
theorem get_articles_empty_source_counterexample :
    (get_articles c3DB (some "") none 100).map (fun a => a.source) = ["OpenAI"] ∧
    ("OpenAI" : String) ≠ "" := by decide

/-- C3 (amended): for every store state, optional source filter, optional
since bound and limit: `get_articles` returns only articles that match the
source exactly when a NON-EMPTY source is given (an empty-string source
disables the filter, mirroring Python truthiness) and whose stored
`scraped_at` TEXT is `>=` the bound when `since` is given; the result is
ordered by `published_at` descending with NULL `published_at` after all
non-NULL values, tie-broken by `scraped_at` descending (the `keyLe`
pairwise condition on the stored TEXT keys); and at most `limit` items are
returned. -/
theorem get_articles_spec (db : DB) (source : Option String)
    (since : Option DateTime) (limit : Nat) :
    (∀ a ∈ get_articles db source since limit,
        (∀ s, source = some s → s ≠ "" → a.source = s) ∧
        (∀ t, since = some t → lexLe t.isoData a.scraped_at.isoData = true)) ∧
    List.Pairwise (fun x y => keyLe (artKey y) (artKey x) = true)
      (get_articles db source since limit) ∧
    (get_articles db source since limit).length ≤ limit := by
  have main : ∀ rows : List ArticleRow,
      get_articles db source since limit =
        ((rows.insertionSort (fun a b => rowLe a b = true)).take limit).map rowToArticle →
      (∀ r ∈ rows,
        (∀ s, source = some s → s ≠ "" → r.source = s) ∧
        (∀ t, since = some t → lexLe t.isoData r.scraped_at.isoData = true)) →
      (∀ a ∈ get_articles db source since limit,
          (∀ s, source = some s → s ≠ "" → a.source = s) ∧
          (∀ t, since = some t → lexLe t.isoData a.scraped_at.isoData = true)) ∧
      List.Pairwise (fun x y => keyLe (artKey y) (artKey x) = true)
        (get_articles db source since limit) ∧
      (get_articles db source since limit).length ≤ limit := by
    intro rows heq hcond
    obtain ⟨hmem, hpair, hlen⟩ := sortTake_spec rows limit
    rw [heq]
    refine ⟨?_, hpair, hlen⟩
    intro a ha
    obtain ⟨r, hr, rfl⟩ := hmem a ha
    exact hcond r hr
  rcases source with _ | s
  · rcases since with _ | t
    · exact main db.articles rfl
        (fun r _ => ⟨fun s h => (nomatch h), fun t h => nomatch h⟩)
    · refine main (db.articles.filter
        (fun r => lexLe t.isoData r.scraped_at.isoData)) rfl ?_
      intro r hr
      refine ⟨fun s h => (nomatch h), fun t' h => ?_⟩
      obtain rfl : t = t' := Option.some.inj h
      exact (List.mem_filter.mp hr).2
  · by_cases hs : s = ""
    · subst hs
      rcases since with _ | t
      · exact main db.articles (by simp [get_articles])
          (fun r _ => ⟨fun s' h h' => absurd (Option.some.inj h).symm h',
                       fun t h => nomatch h⟩)
      · refine main (db.articles.filter
          (fun r => lexLe t.isoData r.scraped_at.isoData)) (by simp [get_articles]) ?_
        intro r hr
        refine ⟨fun s' h h' => absurd (Option.some.inj h).symm h', fun t' h => ?_⟩
        obtain rfl : t = t' := Option.some.inj h
        exact (List.mem_filter.mp hr).2
    · rcases since with _ | t
      · refine main (db.articles.filter (fun r => decide (r.source = s)))
          (by simp [get_articles, hs]) ?_
        intro r hr
        refine ⟨fun s' h _ => ?_, fun t h => nomatch h⟩
        obtain rfl : s = s' := Option.some.inj h
        simpa using (List.mem_filter.mp hr).2
      · refine main ((db.articles.filter (fun r => decide (r.source = s))).filter
          (fun r => lexLe t.isoData r.scraped_at.isoData))
          (by simp [get_articles, hs]) ?_
        intro r hr
        refine ⟨fun s' h _ => ?_, fun t' h => ?_⟩
        · obtain rfl : s = s' := Option.some.inj h
          simpa using (List.mem_filter.mp (List.mem_filter.mp hr).1).2
        · obtain rfl : t = t' := Option.some.inj h
          exact (List.mem_filter.mp hr).2

/-- C3 witness: `get_articles_spec` applied to a concrete store, a concrete
non-empty source filter and a concrete since bound. -/
theorem get_articles_spec_witness :
    (rowToArticle w3Row).source = "OpenAI" ∧
    lexLe (DateTime.isoData { year := 2025, month := 1, day := 1 })
      (rowToArticle w3Row).scraped_at.isoData = true := by
  have h := (get_articles_spec w3DB (some "OpenAI")
    (some { year := 2025, month := 1, day := 1 }) 5).1
  have hmem : rowToArticle w3Row ∈ get_articles w3DB (some "OpenAI")
      (some { year := 2025, month := 1, day := 1 }) 5 := by decide
  exact ⟨(h _ hmem).1 "OpenAI" rfl (by decide), (h _ hmem).2 _ rfl⟩

/-! ## C4 — per-run item caps of the collectors -/

/-- C4 counterexample: the feed strategy (`rss.py`) applies no per-run cap
— a 21-entry feed yields 21 collected items, so "every collector returns at
most 20 items" is false. -/
theorem fetch_articles_cap_counterexample :
    ¬ ((OpenAICollector.fetch_articles (fun _ => none) c4Feed).length ≤ 20) := by
  decide

/-- C4 (amended): the path-filtered and multi-strategy scrape collectors
return at most 20 items per run (`articles[:20]`); the feed collector
returns exactly one item per feed entry with no cap. -/
theorem fetch_articles_cap :
    (∀ anchors, (AnthropicCollector.fetch_articles anchors).length ≤ 20) ∧
    (∀ anchors, (DeepMindCollector.fetch_articles anchors).length ≤ 20) ∧
    (∀ rfc entries,
        (OpenAICollector.fetch_articles rfc entries).length = entries.length) := by
  refine ⟨?_, ?_, ?_⟩
  · intro anchors
    unfold AnthropicCollector.fetch_articles
    rw [List.length_take]
    exact Nat.min_le_left _ _
  · intro anchors
    unfold DeepMindCollector.fetch_articles
    rw [List.length_take]
    exact Nat.min_le_left _ _
  · intro rfc entries
    unfold OpenAICollector.fetch_articles
    exact List.length_map _ _

/-! ## C5 — empty lookback window gives the fixed placeholder -/

/-- C5: whenever the lookback-window query (`get_articles` with the window
start and the 50-item cap) yields no articles, the generated summary's
content is exactly the fixed placeholder string, whatever the API key and
the Gemini outcome. -/
theorem generate_daily_summary_empty (apiKey : String) (gemini : Option String)
    (now since : DateTime) (db : DB)
    (h : get_articles db none (some since) 50 = []) :
    (generate_daily_summary apiKey gemini now since db).1.content =
      "No new articles were published in the last 24 hours." := by
  simp [generate_daily_summary, h]

/-- C5 witness: `generate_daily_summary_empty` on a concrete empty store. -/
theorem generate_daily_summary_empty_witness :
    (generate_daily_summary "" none { year := 2025, month := 1, day := 2, hour := 6 }
        { year := 2025, month := 1, day := 1, hour := 6 }
        { articles := [], summaries := [], next_article_id := 1,
          next_summary_id := 1 }).1.content =
      "No new articles were published in the last 24 hours." :=
  generate_daily_summary_empty "" none _ _ _ (by decide)

/-! ## C6 — fallback digest grouping, ordering, per-source cap -/

/-- C6: the fallback digest sorts its source groups alphabetically
(pairwise `lexLe` on the group names), emits at most 5 bullet links per
group, and on the concrete 3×OpenAI + 7×DeepMind fixture produces exactly
the expected line list — the `"DeepMind"` section before the `"OpenAI"`
section with exactly five DeepMind links — joined by newlines with the
header and the generation-timestamp footer. -/
theorem fallback_summary_spec :
    (∀ articles : List Article,
        List.Pairwise (fun g h => lexLe g.1.data h.1.data = true)
          (sortedGroups articles)) ∧
    (∀ articles : List Article, ∀ g ∈ sortedGroups articles,
        (g.2.take 5).length ≤ 5) ∧
    fallbackLines c6Arts c6Now =
      ["# Daily AI News Digest\n",
       "\n## DeepMind\n",
       "- [D1](d1)", "- [D2](d2)", "- [D3](d3)", "- [D4](d4)", "- [D5](d5)",
       "\n## OpenAI\n",
       "- [O1](o1)", "- [O2](o2)", "- [O3](o3)",
       "\n\n*Generated on 2025-01-02 06:00*"] ∧
    _fallback_summary c6Arts c6Now =
      String.intercalate "\n" (fallbackLines c6Arts c6Now) := by
  haveI : IsTotal (String × List Article) (fun g h => lexLe g.1.data h.1.data = true) :=
    ⟨fun g h => by simpa [Bool.or_eq_true] using lexLe_total g.1.data h.1.data⟩
  haveI : IsTrans (String × List Article) (fun g h => lexLe g.1.data h.1.data = true) :=
    ⟨fun _ _ _ hab hbc => lexLe_trans hab hbc⟩
  refine ⟨?_, ?_, by decide, rfl⟩
  · intro articles
    exact List.sorted_insertionSort _ _
  · intro articles g _
    rw [List.length_take]
    exact Nat.min_le_left _ _

/-- C6 witness: `fallback_summary_spec` applied to the fixture's first
(`"DeepMind"`) group. -/
theorem fallback_summary_spec_witness :
    ((((sortedGroups c6Arts).headD ("", [])).2.take 5).length ≤ 5) :=
  fallback_summary_spec.2.1 c6Arts ((sortedGroups c6Arts).headD ("", [])) (by decide)

/-! ## C7 — the URL-slug title fallback can fail validity -/

/-- Embedding of `titleAux` (Python `str.title()`) preserves length. -/
theorem titleAux_length : ∀ (prev : Bool) (l : List Char),
    (DeepMindCollector.titleAux prev l).length = l.length := by
  intro prev l
  induction l generalizing prev with
  | nil => rfl
  | cons c cs ih => simp [DeepMindCollector.titleAux, ih]

/-- The synthesized title has exactly the length of the prefix-stripped
final path segment (separator replacement and title-casing are
character-for-character). -/
theorem title_from_url_length (url : String) :
    (DeepMindCollector._title_from_url url).length =
      (DeepMindCollector.strippedSlug url).length := by
  show (DeepMindCollector.titleAux false _).length = _
  rw [titleAux_length, List.length_map]

/-- C7 counterexample: on the URL `.../blog/ai` step 4 synthesizes the
title `"Ai"`, which fails the validity predicate (shorter than five
characters) — so the terminal fallback does not always pass validity, and
such an anchor is dropped by the post-cascade title length check. -/
theorem title_from_url_counterexample :
    DeepMindCollector._title_from_url "https://deepmind.google/discover/blog/ai"
      = "Ai" ∧
    DeepMindCollector._is_valid_title
      (DeepMindCollector._title_from_url
        "https://deepmind.google/discover/blog/ai") = false := by
  decide

/-- C7 (amended): the step-4 title passes the validity predicate exactly
when the prefix-stripped final path segment of the URL has at least five
characters and the synthesized title is not (case-insensitively, stripped)
a boilerplate phrase; in particular the terminal fallback can fail
validity, and an anchor whose synthesized title is shorter than five
characters is dropped by the post-cascade length check. -/
theorem title_from_url_validity (url : String) :
    DeepMindCollector._is_valid_title (DeepMindCollector._title_from_url url) = true ↔
      (5 ≤ (DeepMindCollector.strippedSlug url).length ∧
       DeepMindCollector.invalidPhrases.contains
         (trimWs ((DeepMindCollector._title_from_url url).data.map Char.toLower))
         = false) := by
  unfold DeepMindCollector._is_valid_title
  split_ifs with hc
  · simp only [Bool.or_eq_true, decide_eq_true_eq] at hc
    constructor
    · intro h
      exact absurd h (by simp)
    · rintro ⟨h5, -⟩
      exfalso
      rcases hc with he | hlt
      · have h0 : (DeepMindCollector._title_from_url url).length = 0 := by
          rw [he]; rfl
        rw [title_from_url_length] at h0
        omega
      · rw [title_from_url_length] at hlt
        omega
  · simp only [Bool.or_eq_true, decide_eq_true_eq, not_or] at hc
    obtain ⟨hne, hlen⟩ := hc
    rw [title_from_url_length] at hlen
    constructor
    · intro h
      exact ⟨by omega, by simpa using h⟩
    · rintro ⟨-, h⟩
      simpa using h

/-! ## C8 — `fetch_all_sources` error isolation and count accounting -/

/-- One `save_article` call grows the `articles` table by exactly the
amount the Python truthiness test counts (a `some` rowid is nonzero when
rowids start at 1). -/
theorem save_article_effects (a : Article) (db : DB) (h : 1 ≤ db.next_article_id) :
    (save_article a db).2.articles.length =
      (match (save_article a db).1 with
       | some i => if i ≠ 0 then 1 else 0
       | none => 0) + db.articles.length ∧
    1 ≤ (save_article a db).2.next_article_id := by
  unfold save_article
  split_ifs with hdup
  · exact ⟨by simp, h⟩
  · have hne : db.next_article_id ≠ 0 := by omega
    constructor
    · simp [hne]
      omega
    · simp

/-- The persistence loop's running count equals the growth of the
`articles` table. -/
theorem saveLoop_count (items : List CollectedArticle) (now : DateTime) :
    ∀ db : DB, 1 ≤ db.next_article_id →
      (saveLoop items now db).1 + db.articles.length =
        (saveLoop items now db).2.articles.length ∧
      1 ≤ (saveLoop items now db).2.next_article_id := by
  induction items with
  | nil =>
    intro db h
    exact ⟨by simp [saveLoop], h⟩
  | cons c rest ih =>
    intro db h
    simp only [saveLoop]
    obtain ⟨e1, h2⟩ := save_article_effects
      { id := none, title := c.title, url := c.url, source := c.source,
        published_at := c.published_at, content_preview := c.content_preview,
        scraped_at := now } db h
    obtain ⟨e2, h3⟩ := ih _ h2
    exact ⟨by omega, h3⟩

/-- The total over all collectors equals the growth of the `articles`
table. -/
theorem fetch_all_sources_count :
    ∀ (results : List (Except Unit (List CollectedArticle))) (now : DateTime)
      (db : DB), 1 ≤ db.next_article_id →
      (fetch_all_sources results now db).1 + db.articles.length =
        (fetch_all_sources results now db).2.articles.length ∧
      1 ≤ (fetch_all_sources results now db).2.next_article_id := by
  intro results
  induction results with
  | nil =>
    intro now db h
    exact ⟨by simp [fetch_all_sources], h⟩
  | cons x rest ih =>
    intro now db h
    cases x with
    | error e => simpa [fetch_all_sources] using ih now db h
    | ok items =>
      simp only [fetch_all_sources]
      obtain ⟨e1, h2⟩ := saveLoop_count items now db h
      obtain ⟨e2, h3⟩ := ih now (saveLoop items now db).2 h2
      exact ⟨by omega, h3⟩

/-- A collector whose fetch raises contributes nothing and changes
nothing: the run is equivalent to the run without it. -/
theorem fetch_error_skip :
    ∀ (pre post : List (Except Unit (List CollectedArticle))) (e : Unit)
      (now : DateTime) (db : DB),
      fetch_all_sources (pre ++ Except.error e :: post) now db =
        fetch_all_sources (pre ++ post) now db := by
  intro pre
  induction pre with
  | nil => intro post e now db; rfl
  | cons x rest ih =>
    intro post e now db
    cases x with
    | error e2 =>
      simp only [List.cons_append, fetch_all_sources]
      exact ih post e now db
    | ok items =>
      simp only [List.cons_append, fetch_all_sources, List.append_eq]
      rw [ih]

/-- C8: an exception from one collector is caught and removes only that
collector's contribution — the remaining collectors still run and persist
into the same store — and the returned total is exactly the number of
persist calls that counted as newly persisted (equivalently, the growth of
the `articles` table), given the AUTOINCREMENT invariant that rowids start
at 1. -/
theorem fetch_all_sources_spec :
    (∀ (pre post : List (Except Unit (List CollectedArticle))) (e : Unit)
        (now : DateTime) (db : DB),
        fetch_all_sources (pre ++ Except.error e :: post) now db =
          fetch_all_sources (pre ++ post) now db) ∧
    (∀ results now db, 1 ≤ db.next_article_id →
        (fetch_all_sources results now db).1 + db.articles.length =
          (fetch_all_sources results now db).2.articles.length) :=
  ⟨fetch_error_skip,
   fun results now db h => (fetch_all_sources_count results now db h).1⟩

/-- C8 witness: `fetch_all_sources_spec` applied to the concrete run. -/
theorem fetch_all_sources_spec_witness :
    (fetch_all_sources w8Results { year := 2025, month := 1, day := 1 } w8DB).1 +
        w8DB.articles.length =
      (fetch_all_sources w8Results { year := 2025, month := 1, day := 1 }
        w8DB).2.articles.length :=
  fetch_all_sources_spec.2 w8Results _ w8DB (by decide)

/-! ## C9 — tolerant date parsing in the collectors -/

/-- C9: both date parsers are total into `Option` (no exception escapes —
`none` is the only failure outcome): the feed strategy's `_parse_date`
returns `none` on a missing or empty date string and yields a datetime only
when the RFC-2822 parser accepts the input; the scrape strategy's
`_extract_date_from_context` returns `none` when the node has no parent or
no month-day-year pattern occurs in the parent text, and yields a datetime
only when the matched text parses under one of the two accepted
`strptime` formats. -/
theorem date_parsing_tolerant :
    (∀ rfc, OpenAICollector._parse_date rfc none = none) ∧
    (∀ rfc s d, OpenAICollector._parse_date rfc (some s) = some d →
        s ≠ "" ∧ rfc s = some d) ∧
    (AnthropicCollector._extract_date_from_context none = none) ∧
    (∀ t d, AnthropicCollector._extract_date_from_context (some t) = some d →
        ∃ m, AnthropicCollector.findDateMatch t.data = some m ∧
          (AnthropicCollector.strptime_b_d_Y true m = some d ∨
           AnthropicCollector.strptime_b_d_Y false m = some d)) := by
  refine ⟨fun rfc => rfl, ?_, rfl, ?_⟩
  · intro rfc s d h
    have h2 : (if s = "" then none else rfc s) = some d := h
    split_ifs at h2 with he
    exact ⟨he, h2⟩
  · intro t d h
    have h2 : (match AnthropicCollector.findDateMatch t.data with
        | none => none
        | some m =>
          match AnthropicCollector.strptime_b_d_Y true m with
          | some d => some d
          | none => AnthropicCollector.strptime_b_d_Y false m) = some d := h
    cases hm : AnthropicCollector.findDateMatch t.data with
    | none =>
      rw [hm] at h2
      exact absurd h2 (by simp)
    | some m =>
      rw [hm] at h2
      have h3 : (match AnthropicCollector.strptime_b_d_Y true m with
          | some d => some d
          | none => AnthropicCollector.strptime_b_d_Y false m) = some d := h2
      refine ⟨m, rfl, ?_⟩
      cases h1 : AnthropicCollector.strptime_b_d_Y true m with
      | some d2 =>
        rw [h1] at h3
        obtain rfl : d2 = d := Option.some.inj h3
        exact Or.inl rfl
      | none =>
        rw [h1] at h3
        exact Or.inr h3

/-- C9 witness: `date_parsing_tolerant` applied to a concrete parent text
containing "Dec 9, 2025". -/
theorem date_parsing_tolerant_witness :
    ∃ m, AnthropicCollector.findDateMatch "Posted Dec 9, 2025".data = some m ∧
      (AnthropicCollector.strptime_b_d_Y true m =
          some { year := 2025, month := 12, day := 9 } ∨
       AnthropicCollector.strptime_b_d_Y false m =
          some { year := 2025, month := 12, day := 9 }) :=
  date_parsing_tolerant.2.2.2 "Posted Dec 9, 2025"
    { year := 2025, month := 12, day := 9 } (by decide)

/-! ## C10 — DeepMind item URLs are query-stripped and pairwise distinct -/

/-- The query-stripped URL contains no `'?'`. -/
theorem stripQuery_no_query (url : String) :
    ∀ c ∈ (DeepMindCollector.stripQuery url).data, c ≠ '?' := by
  intro c hc
  have h := List.mem_takeWhile_imp hc
  simpa using h

theorem not_mem_of_any_eq_false {seen : List String} {u : String}
    (h : ¬ (seen.any (fun s => decide (s = u)) = true)) : u ∉ seen :=
  fun hmem => h (List.any_eq_true.mpr ⟨u, hmem, by simp⟩)

/-- Loop invariant: every produced item has a query-free URL not in
`seen`, and the produced URLs are pairwise distinct. -/
theorem dm_collectLoop_spec :
    ∀ (anchors : List DeepMindCollector.DMAnchor) (seen : List String),
      (∀ item ∈ DeepMindCollector.collectLoop anchors seen,
          (∀ c ∈ item.url.data, c ≠ '?') ∧ item.url ∉ seen) ∧
      List.Pairwise (fun u v => u ≠ v)
        ((DeepMindCollector.collectLoop anchors seen).map (fun i => i.url)) := by
  intro anchors
  induction anchors with
  | nil =>
    intro seen
    exact ⟨fun item h => absurd h (List.not_mem_nil _), List.Pairwise.nil⟩
  | cons a rest ih =>
    intro seen
    have hw : ∀ base : String,
        (∀ item ∈ DeepMindCollector.collectLoop rest (base :: seen),
            (∀ c ∈ item.url.data, c ≠ '?') ∧ item.url ∉ seen) ∧
        List.Pairwise (fun u v => u ≠ v)
          ((DeepMindCollector.collectLoop rest (base :: seen)).map
            (fun i => i.url)) := by
      intro base
      refine ⟨fun item hmem => ?_, (ih _).2⟩
      obtain ⟨hq, hnot⟩ := (ih _).1 item hmem
      exact ⟨hq, fun hs => hnot (List.mem_cons_of_mem _ hs)⟩
    have hcons : ∀ (ttl u : String),
        ¬(seen.any (fun s => decide (s = DeepMindCollector.stripQuery u)) = true) →
        (∀ item ∈ (CollectedArticle.mk ttl (DeepMindCollector.stripQuery u)
              "DeepMind" none none ::
            DeepMindCollector.collectLoop rest
              (DeepMindCollector.stripQuery u :: seen)),
            (∀ c ∈ item.url.data, c ≠ '?') ∧ item.url ∉ seen) ∧
        List.Pairwise (fun x y => x ≠ y)
          ((CollectedArticle.mk ttl (DeepMindCollector.stripQuery u)
              "DeepMind" none none ::
            DeepMindCollector.collectLoop rest
              (DeepMindCollector.stripQuery u :: seen)).map (fun i => i.url)) := by
      intro ttl u hseen
      constructor
      · intro item hmem
        rcases List.mem_cons.mp hmem with rfl | hmem2
        · exact ⟨stripQuery_no_query u, not_mem_of_any_eq_false hseen⟩
        · obtain ⟨hq, hnot⟩ := (ih _).1 item hmem2
          exact ⟨hq, fun hs => hnot (List.mem_cons_of_mem _ hs)⟩
      · rw [List.map_cons, List.pairwise_cons]
        refine ⟨?_, (ih _).2⟩
        intro v hv
        obtain ⟨item, hitem, rfl⟩ := List.mem_map.mp hv
        obtain ⟨-, hnot⟩ := (ih _).1 item hitem
        exact fun he => hnot (he ▸ List.mem_cons_self _ _)
    simp only [DeepMindCollector.collectLoop]
    split_ifs with h1 h2 h3 h4 h5 h6 h7 h8 <;>
      first
        | exact ih seen
        | exact hw _
        | exact hcons _ _ (by assumption)

/-- C10: every item returned by `DeepMindCollector.fetch_articles` carries
the query-stripped URL in its `url` field (no `'?'` occurs in it), and the
returned URLs are pairwise distinct. -/
theorem deepmind_url_normalization (anchors : List DeepMindCollector.DMAnchor) :
    (∀ item ∈ DeepMindCollector.fetch_articles anchors,
        ∀ c ∈ item.url.data, c ≠ '?') ∧
    List.Pairwise (fun u v => u ≠ v)
      ((DeepMindCollector.fetch_articles anchors).map (fun i => i.url)) := by
  obtain ⟨hmem, hpair⟩ := dm_collectLoop_spec anchors []
  constructor
  · intro item hitem
    exact (hmem item ((List.take_sublist _ _).subset hitem)).1
  · unfold DeepMindCollector.fetch_articles
    rw [List.map_take]
    exact List.Pairwise.sublist (List.take_sublist _ _) hpair

/-- C10 witness: `deepmind_url_normalization` applied to the concrete run
(the tracking query is gone from the stored url). -/
theorem deepmind_url_normalization_witness : ('?' : Char) ∉ w10Item.url.data :=
  fun h =>
    (deepmind_url_normalization w10Anchors).1 w10Item (by decide) '?' h rfl

end NewsBuddy
